import Mathlib

/-!
Shallow embedding of the realtime fan-out core of the Vibe Chat backend
(src/main.py): the SSE push-stream broadcaster, the WebSocket connection
manager, the fan-out dispatcher `publish_event`, and the two write
endpoints (`send_message`, `upload_media`) that trigger it.

Conventions of the embedding:
* WebSocket handles and SSE queue objects are identified by natural-number
  ids (Python object identity).
* `asyncio.Queue` is modelled by `Queue` below: `maxsize = 0` means
  unbounded, exactly as in asyncio; `put_nowait` fails (raises `QueueFull`,
  here `Except.error`) iff the queue is full.
* Every send/enqueue performed by a broadcast is recorded in a `Delivery`
  trace, the observation of the `ws.send_text` / `q.put_nowait` calls.
* Send failures of the underlying transport are an oracle
  `sendOk : Nat → Bool` (which sockets' sends succeed).
-/

namespace VibeChat

/-- Model of `asyncio.Queue`: `id` is the Python object identity,
`maxsize` the capacity bound passed to the constructor (`0` = unbounded,
asyncio's default), `items` the queued serialized events. -/
structure Queue where
  id : Nat
  maxsize : Nat
  items : List String
deriving DecidableEq

/-- `asyncio.Queue.full()`: `if self._maxsize <= 0: return False` else
`self.qsize() >= self._maxsize`. -/
def Queue.full (q : Queue) : Bool :=
  if q.maxsize ≤ 0 then false else decide (q.maxsize ≤ q.items.length)

/-- `asyncio.Queue.put_nowait(item)`: raises `QueueFull` when full,
otherwise appends the item. -/
def Queue.put_nowait (q : Queue) (event : String) : Except Unit Queue :=
  if q.full then Except.error () else Except.ok { q with items := q.items ++ [event] }

/-- The queue created at the top of `sse_event_generator`:
`queue = asyncio.Queue()` — no capacity argument, hence `maxsize = 0`. -/
def newQueue (qid : Nat) : Queue :=
  { id := qid, maxsize := 0, items := [] }

/-- The SSE data frame `f"data: {event}\n\n"`. -/
def dataFrame (event : String) : String := "data: " ++ event ++ "\n\n"

/-- The SSE keep-alive frame `": keep-alive\n\n"`. -/
def keepAliveFrame : String := ": keep-alive\n\n"

/-- The timeout of `asyncio.wait_for(queue.get(), timeout=15)`. -/
def sseWaitTimeout : Nat := 15

/-- Model of `asyncio.wait_for(queue.get(), timeout=15)`: when the queue
has pending items, `get` returns the front immediately; when empty, the
wait returns an envelope that arrives within the 15-unit window
(`arrival = some e`), and otherwise (`arrival = none`) it times out. -/
def waitForGet (items : List String) (arrival : Option String) :
    Option (String × List String) :=
  match items, arrival with
  | e :: rest, _ => some (e, rest)
  | [], some e => some (e, [])
  | [], none => none

/-- Outcome of one iteration of the `while True` loop of
`sse_event_generator`: either the loop `break`s (peer disconnected) or
exactly one frame is yielded, leaving the given residual queue contents. -/
inductive SSEIter where
  | terminated
  | frame (out : String) (rest : List String)
deriving DecidableEq

/-- One iteration of `sse_event_generator`'s loop: check
`request.is_disconnected()` and break; otherwise `wait_for` the queue —
an obtained envelope is yielded as a data frame, a timeout yields the
keep-alive comment frame. -/
def sseLoopIter (disconnected : Bool) (items : List String)
    (arrival : Option String) : SSEIter :=
  if disconnected then SSEIter.terminated
  else
    match waitForGet items arrival with
    | some (e, rest) => SSEIter.frame (dataFrame e) rest
    | none => SSEIter.frame keepAliveFrame items

/-- The `finally: sse_subscribers.discard(queue)` of `sse_event_generator`:
remove the queue with the given identity if present, no-op otherwise. -/
def sseDiscard (qid : Nat) (subs : List Queue) : List Queue :=
  subs.filter (fun q => q.id ≠ qid)

/-- One recorded delivery attempt of the dispatcher: an enqueue into an SSE
subscriber queue or a `send_text` on a websocket, with its payload and
whether it succeeded. -/
inductive Delivery where
  | sse (qid : Nat) (payload : String) (delivered : Bool)
  | ws (sid : Nat) (payload : String) (delivered : Bool)
deriving DecidableEq

/-- The socket a `ws` delivery attempt targeted, if any. -/
def Delivery.wsTarget : Delivery → Option Nat
  | Delivery.ws sid _ _ => some sid
  | _ => none

/-- The SSE queue a `sse` delivery attempt targeted, if any. -/
def Delivery.sseTarget : Delivery → Option Nat
  | Delivery.sse qid _ _ => some qid
  | _ => none

/-- The payload a delivery attempt carried. -/
def Delivery.payload : Delivery → String
  | Delivery.sse _ p _ => p
  | Delivery.ws _ p _ => p

/-- `try: q.put_nowait(event) except Exception: pass` — the body of
`publish_event`'s SSE loop for one queue; also reports success. -/
def putOrDrop (event : String) (q : Queue) : Queue × Bool :=
  match q.put_nowait event with
  | Except.ok q2 => (q2, true)
  | Except.error _ => (q, false)

/-- The SSE half of `publish_event`: `for q in list(sse_subscribers)` —
iterate a snapshot, `put_nowait` into each queue, swallow any failure.
Returns the updated queues and the trace of enqueue attempts. -/
def publishSSE (subs : List Queue) (event : String) :
    List Queue × List Delivery :=
  (subs.map (fun q => (putOrDrop event q).1),
   subs.map (fun q => Delivery.sse q.id event (putOrDrop event q).2))

/-- `ConnectionManager`: `self.active: List[WebSocket] = []` — a Python
list of live websocket handles. -/
structure ConnectionManager where
  active : List Nat
deriving DecidableEq

/-- `connect`: accept the handshake and `self.active.append(websocket)`. -/
def ConnectionManager.connect (m : ConnectionManager) (websocket : Nat) :
    ConnectionManager :=
  { active := m.active ++ [websocket] }

/-- `disconnect`: `if websocket in self.active: self.active.remove(websocket)`
(Python `list.remove` deletes the first occurrence). -/
def ConnectionManager.disconnect (m : ConnectionManager) (websocket : Nat) :
    ConnectionManager :=
  if websocket ∈ m.active then { active := m.active.erase websocket } else m

/-- The body of `broadcast`'s for-loop for one socket of the snapshot:
`try: await ws.send_text(message) except Exception: self.disconnect(ws)`.
The accumulator carries the evolving manager state and the send trace. -/
def broadcastStep (sendOk : Nat → Bool) (message : String)
    (acc : ConnectionManager × List Delivery) (ws : Nat) :
    ConnectionManager × List Delivery :=
  if sendOk ws then (acc.1, acc.2 ++ [Delivery.ws ws message true])
  else (acc.1.disconnect ws, acc.2 ++ [Delivery.ws ws message false])

/-- `broadcast`: `for ws in list(self.active)` — iterate a snapshot of the
active list; on a send failure disconnect that socket and continue. -/
def ConnectionManager.broadcast (m : ConnectionManager) (sendOk : Nat → Bool)
    (message : String) : ConnectionManager × List Delivery :=
  m.active.foldl (broadcastStep sendOk message) (m, [])

/-- The process-wide realtime state: `sse_subscribers` and `ws_manager`. -/
structure RTState where
  sse_subscribers : List Queue
  ws_manager : ConnectionManager
deriving DecidableEq

/-- `publish_event(event)`: first the SSE loop over a snapshot of
`sse_subscribers`, then `await ws_manager.broadcast(event)`. The combined
trace lists the SSE enqueue attempts before the websocket sends. -/
def publish_event (sendOk : Nat → Bool) (event : String) (s : RTState) :
    RTState × List Delivery :=
  let sseRes := publishSSE s.sse_subscribers event
  let wsRes := s.ws_manager.broadcast sendOk event
  ({ sse_subscribers := sseRes.1, ws_manager := wsRes.1 },
   sseRes.2 ++ wsRes.2)

/-- The event envelope built by the write endpoints:
`{"type": "new_message", "chat_id": ..., "message_id": ..., "preview": ...}`. -/
structure Envelope where
  type : String
  chat_id : String
  message_id : String
  preview : String
deriving DecidableEq

/-- Lowercase hex digit, as produced by `json.dumps`'s `\uXXXX` escapes. -/
def hexDigit (n : Nat) : Char :=
  if n < 10 then Char.ofNat (48 + n) else Char.ofNat (97 + (n - 10))

/-- Four lowercase hex digits. -/
def hex4 (n : Nat) : String :=
  String.mk [hexDigit (n / 4096 % 16), hexDigit (n / 256 % 16),
             hexDigit (n / 16 % 16), hexDigit (n % 16)]

/-- `json.dumps` string-character escaping with the default
`ensure_ascii=True`: the two-character escapes for `"`, `\`, and the
control characters with short names; `\u00XX` for other controls; ASCII
printable characters verbatim; `\uXXXX` (with surrogate pairs above the
BMP) for everything non-ASCII. -/
def escapeChar (c : Char) : String :=
  if c = '"' then "\\\""
  else if c = '\\' then "\\\\"
  else if c = '\n' then "\\n"
  else if c = '\r' then "\\r"
  else if c = '\t' then "\\t"
  else if c.toNat = 8 then "\\b"
  else if c.toNat = 12 then "\\f"
  else if c.toNat < 32 then "\\u" ++ hex4 c.toNat
  else if c.toNat < 127 then String.mk [c]
  else if c.toNat < 65536 then "\\u" ++ hex4 c.toNat
  else
    "\\u" ++ hex4 (55296 + (c.toNat - 65536) / 1024)
      ++ "\\u" ++ hex4 (56320 + (c.toNat - 65536) % 1024)

/-- A JSON string literal as `json.dumps` emits it. -/
def jsonString (s : String) : String :=
  "\"" ++ String.join (s.data.map escapeChar) ++ "\""

/-- `json.dumps({"type": ..., "chat_id": ..., "message_id": ..., "preview": ...})`
with the default separators and the dict's insertion order. -/
def dumpsEnvelope (e : Envelope) : String :=
  "\x7b\"type\": " ++ jsonString e.type
    ++ ", \"chat_id\": " ++ jsonString e.chat_id
    ++ ", \"message_id\": " ++ jsonString e.message_id
    ++ ", \"preview\": " ++ jsonString e.preview ++ "\x7d"

/-- Modelled from the spec: the document store behind `database.py` (not
among the verified sources) is an external collaborator exposing a minimal
CRUD contract (spec sections 1 and 6). `valid_chat_oid` is whether
`ObjectId(chat_id)` parses, `chat_exists` / `user_exists` the outcome of
the `find_one` lookups, `new_message_id` the id `create_document("message", ...)`
returns, `new_media_id` the id of the media blob insert. The claims only
concern writes that already committed, so the write calls are assumed to
succeed and return these ids. -/
structure StorageEnv where
  valid_chat_oid : String → Bool
  chat_exists : String → Bool
  user_exists : String → Bool
  new_message_id : String
  new_media_id : String

/-- `HTTPException(status_code=..., detail=...)`. -/
structure HTTPError where
  status_code : Nat
  detail : String
deriving DecidableEq

/-- `SendMessageRequest` (`kind: Optional[str] = "text"`). -/
structure SendMessageRequest where
  chat_id : String
  sender_username : String
  content : String
  kind : Option String := some "text"
  media_url : Option String := none
deriving DecidableEq

/-- `kind = payload.kind or "text"` — Python `or` replaces both `None`
and the empty string by the default. -/
def messageKind (payload : SendMessageRequest) : String :=
  match payload.kind with
  | none => "text"
  | some k => if k = "" then "text" else k

/-- `preview = payload.content or ("📷 Immagine" if kind == "image" else
"🎙️ Audio" if kind == "audio" else "Messaggio")`. -/
def messagePreview (payload : SendMessageRequest) : String :=
  if payload.content = "" then
    if messageKind payload = "image" then "📷 Immagine"
    else if messageKind payload = "audio" then "🎙️ Audio"
    else "Messaggio"
  else payload.content

/-- The serialized envelope `send_message` hands to `publish_event`. -/
def messageBlob (env : StorageEnv) (payload : SendMessageRequest) : String :=
  dumpsEnvelope
    { type := "new_message", chat_id := payload.chat_id,
      message_id := env.new_message_id, preview := messagePreview payload }

/-- `POST /api/messages` (`send_message`): validate the chat id, look up
the chat and the sender, create the message document, update the chat
preview, serialize the envelope, `publish_event` it, and return the new
message id. The returned triple is the response's `message_id`, the
realtime state after the fan-out as well as its delivery trace. -/
def send_message (env : StorageEnv) (sendOk : Nat → Bool)
    (payload : SendMessageRequest) (s : RTState) :
    Except HTTPError (String × RTState × List Delivery) :=
  if ¬ env.valid_chat_oid payload.chat_id then
    Except.error { status_code := 400, detail := "Invalid chat_id" }
  else if ¬ env.chat_exists payload.chat_id then
    Except.error { status_code := 404, detail := "Chat not found" }
  else if ¬ env.user_exists payload.sender_username then
    Except.error { status_code := 404, detail := "Sender not found" }
  else
    let res := publish_event sendOk (messageBlob env payload) s
    Except.ok (env.new_message_id, res.1, res.2)

/-- The form fields of `POST /api/messages/upload` that the claims need. -/
structure UploadMediaRequest where
  chat_id : String
  sender_username : String
  kind : String
deriving DecidableEq

/-- `preview = "📷 Immagine" if kind == "image" else "🎙️ Audio"`. -/
def uploadPreview (p : UploadMediaRequest) : String :=
  if p.kind = "image" then "📷 Immagine" else "🎙️ Audio"

/-- The serialized envelope `upload_media` hands to `publish_event`. -/
def uploadBlob (env : StorageEnv) (p : UploadMediaRequest) : String :=
  dumpsEnvelope
    { type := "new_message", chat_id := p.chat_id,
      message_id := env.new_message_id, preview := uploadPreview p }

/-- `POST /api/messages/upload` (`upload_media`): same validation as
`send_message`, store the blob, create the message, publish the envelope,
return `message_id` and `media_url`. -/
def upload_media (env : StorageEnv) (sendOk : Nat → Bool)
    (p : UploadMediaRequest) (s : RTState) :
    Except HTTPError (String × String × RTState × List Delivery) :=
  if ¬ env.valid_chat_oid p.chat_id then
    Except.error { status_code := 400, detail := "Invalid chat_id" }
  else if ¬ env.chat_exists p.chat_id then
    Except.error { status_code := 404, detail := "Chat not found" }
  else if ¬ env.user_exists p.sender_username then
    Except.error { status_code := 404, detail := "Sender not found" }
  else
    let media_url := "/api/media/" ++ env.new_media_id
    let res := publish_event sendOk (uploadBlob env p) s
    Except.ok (env.new_message_id, media_url, res.1, res.2)

/-- The per-connection view of one `sse_event_generator` task: the
identity of the queue it owns, whether its peer is still connected, and
whether the loop has terminated (ran its `finally`). -/
structure SSEConn where
  qid : Nat
  peerConnected : Bool
  terminated : Bool
deriving DecidableEq

/-- The whole-process state driven by the endpoints: the registered SSE
queues (`sse_subscribers`), every SSE generator task ever started, the
websocket manager, and every websocket ever accepted paired with whether
its peer is still alive. -/
structure SysState where
  queues : List Queue
  conns : List SSEConn
  manager : ConnectionManager
  sockets : List (Nat × Bool)
deriving DecidableEq

/-- The liveness oracle a broadcast sees: a send to a socket succeeds iff
its peer is still alive. -/
def sockLive (s : SysState) (sid : Nat) : Bool :=
  (List.lookup sid s.sockets).getD false

/-- The fresh-state of the process: no subscribers, no sockets. -/
def initState : SysState :=
  { queues := [], conns := [], manager := { active := [] }, sockets := [] }

/-- The transitions the endpoints of `main.py` can perform. Fresh object
identities model Python allocating a new queue/websocket per request. -/
inductive Step : SysState → SysState → Prop where
  | sseSubscribe (qid : Nat) (s : SysState) :
      qid ∉ s.queues.map Queue.id → qid ∉ s.conns.map SSEConn.qid →
      Step s { s with
        queues := s.queues ++ [newQueue qid],
        conns := s.conns ++ [{ qid := qid, peerConnected := true, terminated := false }] }
  | ssePeerDisconnect (qid : Nat) (s : SysState) :
      Step s { s with
        conns := s.conns.map (fun c =>
          if c.qid = qid then { c with peerConnected := false } else c) }
  | sseLoopWakeDisconnected (qid : Nat) (s : SysState) :
      (∃ c ∈ s.conns, c.qid = qid ∧ c.peerConnected = false ∧ c.terminated = false) →
      Step s { s with
        queues := sseDiscard qid s.queues,
        conns := s.conns.map (fun c =>
          if c.qid = qid then { c with terminated := true } else c) }
  | wsConnect (sid : Nat) (s : SysState) :
      sid ∉ s.sockets.map Prod.fst →
      Step s { s with
        manager := s.manager.connect sid,
        sockets := s.sockets ++ [(sid, true)] }
  | wsPeerDie (sid : Nat) (s : SysState) :
      Step s { s with
        sockets := s.sockets.map (fun p => if p.1 = sid then (p.1, false) else p) }
  | wsEndpointClose (sid : Nat) (s : SysState) :
      Step s { s with manager := s.manager.disconnect sid }
  | publish (event : String) (s : SysState) :
      Step s { s with
        queues := (publishSSE s.queues event).1,
        manager := (s.manager.broadcast (sockLive s) event).1 }

/-- States reachable from process start through the endpoints. -/
def Reachable (s : SysState) : Prop :=
  Relation.ReflTransGen Step initState s

/-! Concrete instances used to instantiate the theorems below. -/

/-- A send oracle under which only socket `1` is still deliverable. -/
def sendOkW : Nat → Bool := fun sid => sid == 1

/-- An empty unbounded subscriber queue. -/
def queueW : Queue := { id := 5, maxsize := 0, items := [] }

/-- A saturated bounded queue (`maxsize = 1`, one pending item). -/
def fullQueueW : Queue := { id := 6, maxsize := 1, items := ["x"] }

/-- A manager with two registered sockets. -/
def mW : ConnectionManager := { active := [1, 2] }

/-- A realtime state with one empty and one full subscriber queue and two
sockets. -/
def sW : RTState := { sse_subscribers := [queueW, fullQueueW], ws_manager := mW }

/-- A storage environment where every lookup succeeds. -/
def envW : StorageEnv :=
  { valid_chat_oid := fun _ => true, chat_exists := fun _ => true,
    user_exists := fun _ => true, new_message_id := "m1", new_media_id := "b1" }

/-- A plain text message request. -/
def payloadW : SendMessageRequest :=
  { chat_id := "c1", sender_username := "alice", content := "hi" }

/-- An image upload request. -/
def uploadW : UploadMediaRequest :=
  { chat_id := "c1", sender_username := "alice", kind := "image" }

/-- The system state right after one SSE subscription. -/
def subState : SysState :=
  { queues := [newQueue 0],
    conns := [{ qid := 0, peerConnected := true, terminated := false }],
    manager := { active := [] }, sockets := [] }

/-- `subState` after its subscriber's peer dropped (generator still blocked
in `wait_for`, queue still registered). -/
def deadPeerState : SysState :=
  { queues := [newQueue 0],
    conns := [{ qid := 0, peerConnected := false, terminated := false }],
    manager := { active := [] }, sockets := [] }

/-- `deadPeerState` after a publish of `"e"`: the dead subscriber's queue
is still registered and now holds the event. -/
def afterPublishState : SysState :=
  { queues := [{ id := 0, maxsize := 0, items := ["e"] }],
    conns := [{ qid := 0, peerConnected := false, terminated := false }],
    manager := { active := [] }, sockets := [] }

/-- The system state right after one websocket was accepted. -/
def wsState : SysState :=
  { queues := [], conns := [],
    manager := { active := [3] }, sockets := [(3, true)] }

/-! Helper lemmas about the broadcaster and the publisher. -/

theorem disconnect_active (m : ConnectionManager) (ws : Nat) :
    (m.disconnect ws).active = m.active.erase ws := by
  unfold ConnectionManager.disconnect
  split
  · rfl
  · exact (List.erase_of_not_mem (by assumption)).symm

theorem broadcast_go (sendOk : Nat → Bool) (message : String) :
    ∀ (l : List Nat) (st : ConnectionManager) (tr : List Delivery),
      l.foldl (broadcastStep sendOk message) (st, tr)
        = ({ active := st.active.diff (l.filter (fun ws => !sendOk ws)) },
           tr ++ l.map (fun ws => Delivery.ws ws message (sendOk ws))) := by
  intro l
  induction l with
  | nil => intro st tr; simp
  | cons x l ih =>
    intro st tr
    by_cases hx : sendOk x = true
    · simp only [List.foldl_cons, broadcastStep, hx, if_pos]
      rw [ih]
      simp [hx]
    · have hx' : sendOk x = false := by
        cases h : sendOk x
        · rfl
        · exact absurd h hx
      simp only [List.foldl_cons, broadcastStep, hx', Bool.false_eq_true, if_neg,
        not_false_eq_true]
      rw [ih]
      simp [hx', disconnect_active, List.diff_cons]

theorem broadcast_active (m : ConnectionManager) (sendOk : Nat → Bool)
    (message : String) :
    ((m.broadcast sendOk message).1).active
      = m.active.diff (m.active.filter (fun ws => !sendOk ws)) := by
  unfold ConnectionManager.broadcast
  rw [broadcast_go]

theorem broadcast_trace (m : ConnectionManager) (sendOk : Nat → Bool)
    (message : String) :
    (m.broadcast sendOk message).2
      = m.active.map (fun ws => Delivery.ws ws message (sendOk ws)) := by
  unfold ConnectionManager.broadcast
  rw [broadcast_go]
  simp

theorem diff_filter_not {α : Type} [DecidableEq α] (p : α → Bool) :
    ∀ l : List α, l.Nodup → l.diff (l.filter (fun x => !p x)) = l.filter p := by
  intro l
  induction l with
  | nil => intro _; simp
  | cons a l ih =>
    intro hnd
    have ha : a ∉ l := (List.nodup_cons.mp hnd).1
    have hl : l.Nodup := (List.nodup_cons.mp hnd).2
    by_cases hp : p a = true
    · have h1 : (a :: l).filter (fun x => !p x) = l.filter (fun x => !p x) := by
        simp [List.filter_cons, hp]
      have h2 : a ∉ l.filter (fun x => !p x) :=
        fun hmem => ha (List.mem_of_mem_filter hmem)
      rw [h1, List.cons_diff_of_not_mem h2, ih hl, List.filter_cons, hp]
      simp
    · have hp' : p a = false := by
        cases h : p a
        · rfl
        · exact absurd h hp
      have h1 : (a :: l).filter (fun x => !p x)
          = a :: l.filter (fun x => !p x) := by
        simp [List.filter_cons, hp']
      rw [h1, List.diff_cons, List.erase_cons_head, ih hl, List.filter_cons, hp']
      simp

theorem broadcast_active_nodup (m : ConnectionManager) (sendOk : Nat → Bool)
    (message : String) (h : m.active.Nodup) :
    ((m.broadcast sendOk message).1).active = m.active.filter sendOk := by
  rw [broadcast_active, diff_filter_not _ _ h]

theorem full_of_maxsize_zero (q : Queue) (h : q.maxsize = 0) :
    q.full = false := by
  simp [Queue.full, h]

theorem put_nowait_of_maxsize_zero (q : Queue) (event : String)
    (h : q.maxsize = 0) :
    q.put_nowait event = Except.ok { q with items := q.items ++ [event] } := by
  simp [Queue.put_nowait, full_of_maxsize_zero q h]

theorem putOrDrop_eq (event : String) (q : Queue) :
    putOrDrop event q
      = if q.full then (q, false)
        else ({ q with items := q.items ++ [event] }, true) := by
  unfold putOrDrop Queue.put_nowait
  by_cases h : q.full = true
  · simp [h]
  · have h' : q.full = false := by
      cases hf : q.full
      · rfl
      · exact absurd hf h
    simp [h']

theorem putOrDrop_id (event : String) (q : Queue) :
    (putOrDrop event q).1.id = q.id := by
  rw [putOrDrop_eq]
  split <;> rfl

theorem putOrDrop_maxsize (event : String) (q : Queue) :
    (putOrDrop event q).1.maxsize = q.maxsize := by
  rw [putOrDrop_eq]
  split <;> rfl

/-- The registry invariants that hold in every reachable state: socket
and queue identities are allocated at most once, the active list only
holds accepted sockets and has no duplicates, every registered queue is
unbounded, and a terminated generator's queue is no longer registered. -/
structure SysInv (s : SysState) : Prop where
  sockNodup : (s.sockets.map Prod.fst).Nodup
  activeSub : ∀ sid ∈ s.manager.active, sid ∈ s.sockets.map Prod.fst
  activeNodup : s.manager.active.Nodup
  queueMax : ∀ q ∈ s.queues, q.maxsize = 0
  qidNodup : (s.queues.map Queue.id).Nodup
  connNodup : (s.conns.map SSEConn.qid).Nodup
  termGone : ∀ c ∈ s.conns, c.terminated = true → c.qid ∉ s.queues.map Queue.id

theorem sysInv_init : SysInv initState := by
  constructor <;> simp [initState]

theorem sysInv_step {s s' : SysState} (h : SysInv s) (st : Step s s') :
    SysInv s' := by
  cases st with
  | sseSubscribe qid s h1 h2 =>
    have hq : (s.queues ++ [newQueue qid]).map Queue.id
        = s.queues.map Queue.id ++ [qid] := by simp [newQueue]
    have hc : (s.conns ++ [({ qid := qid, peerConnected := true, terminated := false } : SSEConn)]).map SSEConn.qid
        = s.conns.map SSEConn.qid ++ [qid] := by simp
    refine ⟨h.sockNodup, h.activeSub, h.activeNodup, ?_, ?_, ?_, ?_⟩
    · intro q hqm
      rcases List.mem_append.mp hqm with hold | hnew
      · exact h.queueMax q hold
      · simp only [List.mem_singleton] at hnew
        rw [hnew]; rfl
    · rw [hq]
      exact List.Nodup.append h.qidNodup (List.nodup_singleton qid)
        (fun a ha hb => by
          simp only [List.mem_singleton] at hb
          exact h1 (hb ▸ ha))
    · rw [hc]
      exact List.Nodup.append h.connNodup (List.nodup_singleton qid)
        (fun a ha hb => by
          simp only [List.mem_singleton] at hb
          exact h2 (hb ▸ ha))
    · intro c hcm hterm
      rw [hq]
      rcases List.mem_append.mp hcm with hold | hnew
      · intro hmem
        rcases List.mem_append.mp hmem with hm | hm
        · exact h.termGone c hold hterm hm
        · simp only [List.mem_singleton] at hm
          exact h2 (hm ▸ List.mem_map_of_mem SSEConn.qid hold)
      · simp only [List.mem_singleton] at hnew
        rw [hnew] at hterm
        exact absurd hterm (by simp)
  | ssePeerDisconnect qid s =>
    have hqid : (s.conns.map (fun c =>
        if c.qid = qid then { c with peerConnected := false } else c)).map SSEConn.qid
        = s.conns.map SSEConn.qid := by
      rw [List.map_map]
      apply List.map_congr_left
      intro c _
      by_cases hcq : c.qid = qid <;> simp [hcq]
    refine ⟨h.sockNodup, h.activeSub, h.activeNodup, h.queueMax, h.qidNodup, ?_, ?_⟩
    · rw [hqid]; exact h.connNodup
    · intro c' hc' hterm
      rcases List.mem_map.mp hc' with ⟨c, hc, hfc⟩
      subst hfc
      by_cases hcq : c.qid = qid
      · rw [if_pos hcq] at hterm ⊢
        exact h.termGone c hc hterm
      · rw [if_neg hcq] at hterm ⊢
        exact h.termGone c hc hterm
  | sseLoopWakeDisconnected qid s hex =>
    have hqid : (s.conns.map (fun c =>
        if c.qid = qid then { c with terminated := true } else c)).map SSEConn.qid
        = s.conns.map SSEConn.qid := by
      rw [List.map_map]
      apply List.map_congr_left
      intro c _
      by_cases hcq : c.qid = qid <;> simp [hcq]
    have hsub : List.Sublist (sseDiscard qid s.queues) s.queues :=
      List.filter_sublist _
    refine ⟨h.sockNodup, h.activeSub, h.activeNodup, ?_, ?_, ?_, ?_⟩
    · intro q hqm
      exact h.queueMax q (hsub.subset hqm)
    · exact List.Nodup.sublist (hsub.map Queue.id) h.qidNodup
    · rw [hqid]; exact h.connNodup
    · intro c' hc' hterm hmem
      rcases List.mem_map.mp hc' with ⟨c, hc, hfc⟩
      subst hfc
      rcases List.mem_map.mp hmem with ⟨q, hq, hqid2⟩
      have hqne : q.id ≠ qid := by
        have h2 := (List.mem_filter.mp hq).2
        simpa using h2
      by_cases hcq : c.qid = qid
      · rw [if_pos hcq] at hqid2
        exact hqne (hqid2.trans hcq)
      · rw [if_neg hcq] at hterm hqid2
        exact h.termGone c hc hterm
          (List.mem_map.mpr ⟨q, (List.mem_filter.mp hq).1, hqid2⟩)
  | wsConnect sid s hfresh =>
    have hsock : ((s.sockets ++ [(sid, true)]).map Prod.fst)
        = s.sockets.map Prod.fst ++ [sid] := by simp
    refine ⟨?_, ?_, ?_, h.queueMax, h.qidNodup, h.connNodup, h.termGone⟩
    · rw [hsock]
      exact List.Nodup.append h.sockNodup (List.nodup_singleton sid)
        (fun a ha hb => by
          simp only [List.mem_singleton] at hb
          exact hfresh (hb ▸ ha))
    · intro a ha
      rw [hsock]
      rcases List.mem_append.mp ha with hold | hnew
      · exact List.mem_append.mpr (Or.inl (h.activeSub a hold))
      · simp only [List.mem_singleton] at hnew
        exact List.mem_append.mpr (Or.inr (by simp [hnew]))
    · show (s.manager.active ++ [sid]).Nodup
      exact List.Nodup.append h.activeNodup (List.nodup_singleton sid)
        (fun a ha hb => by
          simp only [List.mem_singleton] at hb
          exact hfresh (hb ▸ h.activeSub a ha))
  | wsPeerDie sid s =>
    have hsock : ((s.sockets.map (fun p => if p.1 = sid then (p.1, false) else p)).map Prod.fst)
        = s.sockets.map Prod.fst := by
      rw [List.map_map]
      apply List.map_congr_left
      intro p _
      by_cases hp : p.1 = sid <;> simp [hp]
    refine ⟨?_, ?_, h.activeNodup, h.queueMax, h.qidNodup, h.connNodup, h.termGone⟩
    · rw [hsock]; exact h.sockNodup
    · intro a ha
      rw [hsock]; exact h.activeSub a ha
  | wsEndpointClose sid s =>
    have hact : (s.manager.disconnect sid).active = s.manager.active.erase sid :=
      disconnect_active _ _
    refine ⟨h.sockNodup, ?_, ?_, h.queueMax, h.qidNodup, h.connNodup, h.termGone⟩
    · intro a ha
      rw [hact] at ha
      exact h.activeSub a ((List.erase_sublist _ _).subset ha)
    · rw [hact]
      exact List.Nodup.sublist (List.erase_sublist _ _) h.activeNodup
  | publish event s =>
    have hqids : ((publishSSE s.queues event).1.map Queue.id)
        = s.queues.map Queue.id := by
      show ((s.queues.map (fun q => (putOrDrop event q).1)).map Queue.id)
        = s.queues.map Queue.id
      rw [List.map_map]
      apply List.map_congr_left
      intro q _
      exact putOrDrop_id event q
    have hsubl : List.Sublist ((s.manager.broadcast (sockLive s) event).1).active
        s.manager.active := by
      rw [broadcast_active]
      exact List.diff_sublist _ _
    refine ⟨h.sockNodup, ?_, ?_, ?_, ?_, h.connNodup, ?_⟩
    · intro a ha
      exact h.activeSub a (hsubl.subset ha)
    · exact List.Nodup.sublist hsubl h.activeNodup
    · intro q hqm
      rcases List.mem_map.mp hqm with ⟨q0, hq0, hq0e⟩
      rw [← hq0e, putOrDrop_maxsize]
      exact h.queueMax q0 hq0
    · rw [hqids]; exact h.qidNodup
    · intro c hc hterm
      rw [hqids]
      exact h.termGone c hc hterm

theorem reachable_inv {s : SysState} (h : Reachable s) : SysInv s := by
  induction h with
  | refl => exact sysInv_init
  | tail _ hstep ih => exact sysInv_step ih hstep

theorem dataFrame_ne_keepAlive (e : String) : dataFrame e ≠ keepAliveFrame := by
  intro h
  have h2 := congrArg (fun s => s.data.head?) h
  simp [dataFrame, keepAliveFrame] at h2

theorem publish_event_payload (sendOk : Nat → Bool) (event : String)
    (s : RTState) :
    ∀ d ∈ (publish_event sendOk event s).2, d.payload = event := by
  intro d hd
  have hd2 : d ∈ (publishSSE s.sse_subscribers event).2
      ++ (s.ws_manager.broadcast sendOk event).2 := hd
  rcases List.mem_append.mp hd2 with h | h
  · have h3 : d ∈ s.sse_subscribers.map
        (fun q => Delivery.sse q.id event (putOrDrop event q).2) := h
    rcases List.mem_map.mp h3 with ⟨q, _, he⟩
    rw [← he]; rfl
  · rw [broadcast_trace] at h
    rcases List.mem_map.mp h with ⟨w, _, he⟩
    rw [← he]; rfl

/-! The claims. -/

/-- C1: `publish_event` first attempts the SSE enqueues over the snapshot
of registered queues and then the socket broadcast — its delivery trace is
the SSE attempts followed by the websocket attempts — and it is a total
function of the failure oracle, so a `send_message` whose storage lookups
and writes succeeded returns `Except.ok` with the new message id for every
oracle, including one under which every delivery on both transports
fails. -/
theorem claim_C1_publish_never_fails_write (env : StorageEnv)
    (sendOk : Nat → Bool) (payload : SendMessageRequest) (s : RTState)
    (h1 : env.valid_chat_oid payload.chat_id = true)
    (h2 : env.chat_exists payload.chat_id = true)
    (h3 : env.user_exists payload.sender_username = true) :
    send_message env sendOk payload s
      = Except.ok (env.new_message_id,
          (publish_event sendOk (messageBlob env payload) s).1,
          (publishSSE s.sse_subscribers (messageBlob env payload)).2
            ++ (s.ws_manager.broadcast sendOk (messageBlob env payload)).2) := by
  simp [send_message, h1, h2, h3, publish_event]

/-- Witness for C1: a concrete committed write under an all-failing send
oracle still returns the new message id. -/
theorem claim_C1_witness :
    send_message envW (fun _ => false) payloadW sW
      = Except.ok (envW.new_message_id,
          (publish_event (fun _ => false) (messageBlob envW payloadW) sW).1,
          (publishSSE sW.sse_subscribers (messageBlob envW payloadW)).2
            ++ (sW.ws_manager.broadcast (fun _ => false)
                  (messageBlob envW payloadW)).2) :=
  claim_C1_publish_never_fails_write envW (fun _ => false) payloadW sW rfl rfl rfl

/-- C2: a broadcast iterates the snapshot of the active list taken at its
start, attempting exactly one send per snapshot member in order (the trace
is exactly the snapshot, so no send failure is propagated and none is
retried); the surviving active list is exactly the members whose send
succeeded, so a socket whose send failed is absent from the active list at
the start of the next broadcast. -/
theorem claim_C2_broadcast_prunes_failed (m : ConnectionManager)
    (sendOk : Nat → Bool) (message : String) (h : m.active.Nodup) :
    (m.broadcast sendOk message).2
        = m.active.map (fun ws => Delivery.ws ws message (sendOk ws))
    ∧ ((m.broadcast sendOk message).1).active = m.active.filter sendOk
    ∧ ∀ ws ∈ m.active, sendOk ws = false →
        ws ∉ ((m.broadcast sendOk message).1).active := by
  refine ⟨broadcast_trace m sendOk message,
    broadcast_active_nodup m sendOk message h, ?_⟩
  intro ws _ hfail hmem
  rw [broadcast_active_nodup m sendOk message h] at hmem
  have h2 := (List.mem_filter.mp hmem).2
  rw [hfail] at h2
  exact Bool.false_ne_true h2

/-- Witness for C2: two sockets, the send to socket `2` fails; the trace
attempts both, and `2` is gone from the active list afterwards. -/
theorem claim_C2_witness :
    (mW.broadcast sendOkW "x").2
        = mW.active.map (fun ws => Delivery.ws ws "x" (sendOkW ws))
    ∧ ((mW.broadcast sendOkW "x").1).active = mW.active.filter sendOkW
    ∧ ∀ ws ∈ mW.active, sendOkW ws = false →
        ws ∉ ((mW.broadcast sendOkW "x").1).active :=
  claim_C2_broadcast_prunes_failed mW sendOkW "x" (by decide)

/-- C3: publishing to the push-stream subscribers is a total (never
blocking) function: each queue of the snapshot that can accept without
blocking receives the event appended, a full queue is left unchanged (the
event silently dropped for that subscriber only), and each subscriber's
outcome is independent of the others. -/
theorem claim_C3_publish_best_effort (subs : List Queue) (event : String) :
    (publishSSE subs event).1
        = subs.map (fun q => if q.full then q
            else { q with items := q.items ++ [event] })
    ∧ (publishSSE subs event).2
        = subs.map (fun q => Delivery.sse q.id event (!q.full)) := by
  constructor
  · show subs.map (fun q => (putOrDrop event q).1) = _
    apply List.map_congr_left
    intro q _
    rw [putOrDrop_eq]
    by_cases hf : q.full = true
    · simp [hf]
    · have hf' : q.full = false := by
        cases hq : q.full
        · rfl
        · exact absurd hq hf
      simp [hf']
  · show subs.map (fun q => Delivery.sse q.id event (putOrDrop event q).2) = _
    apply List.map_congr_left
    intro q _
    by_cases hf : q.full = true
    · simp [putOrDrop_eq, hf]
    · have hf' : q.full = false := by
        cases hq : q.full
        · rfl
        · exact absurd hq hf
      simp [putOrDrop_eq, hf']

/-- C4: with the peer still connected, every iteration of the SSE
production loop emits exactly one frame: the data frame for the dequeued
envelope whenever `wait_for` obtains one (an envelope pending on the queue
or one arriving within the 15-unit window), and the keep-alive frame
exactly when the wait times out with no envelope; a keep-alive is never
emitted when an envelope arrived before the timeout, and no data frame
coincides with the keep-alive frame. -/
theorem claim_C4_frame_dichotomy (items : List String)
    (arrival : Option String) :
    sseLoopIter false items arrival ≠ SSEIter.terminated
    ∧ (∀ e rest, waitForGet items arrival = some (e, rest) →
        sseLoopIter false items arrival = SSEIter.frame (dataFrame e) rest)
    ∧ (waitForGet items arrival = none →
        sseLoopIter false items arrival = SSEIter.frame keepAliveFrame items)
    ∧ (∀ e rest, arrival = some e →
        sseLoopIter false items arrival ≠ SSEIter.frame keepAliveFrame rest)
    ∧ (∀ e, dataFrame e ≠ keepAliveFrame) := by
  refine ⟨?_, ?_, ?_, ?_, dataFrame_ne_keepAlive⟩
  · cases items <;> cases arrival <;> simp [sseLoopIter, waitForGet]
  · intro e rest hwg
    simp [sseLoopIter, hwg]
  · intro hwg
    simp [sseLoopIter, hwg]
  · intro e rest he hfr
    subst he
    cases items with
    | nil =>
      simp [sseLoopIter, waitForGet] at hfr
      exact dataFrame_ne_keepAlive e hfr.1
    | cons x l =>
      simp [sseLoopIter, waitForGet] at hfr
      exact dataFrame_ne_keepAlive x hfr.1

/-- Witness for C4: with an envelope pending the iteration emits its data
frame; with nothing pending and no arrival it emits the keep-alive. -/
theorem claim_C4_witness :
    sseLoopIter false ["a"] none = SSEIter.frame (dataFrame "a") []
    ∧ sseLoopIter false [] none = SSEIter.frame keepAliveFrame [] :=
  ⟨(claim_C4_frame_dichotomy ["a"] none).2.1 "a" [] rfl,
   (claim_C4_frame_dichotomy [] none).2.2.1 rfl⟩

/-- C5 counterexample: a reachable trace in which a registry entry
outlives its transport beyond the next send attempt. From the fresh
process one subscriber registers its queue, its peer disconnects while
the generator is blocked in `wait_for`, and then a write publishes an
event: the publish — a send attempt on the push transport — completes
with the dead subscriber's queue still registered, and even enqueues the
event into it, contradicting the claim that an entry is removed at the
instant its connection becomes unusable and never later than the next
send attempt. -/
theorem claim_C5_counterexample :
    Reachable deadPeerState
    ∧ Step deadPeerState afterPublishState
    ∧ (∃ c ∈ deadPeerState.conns,
        c.peerConnected = false ∧ c.terminated = false)
    ∧ afterPublishState.queues = [{ id := 0, maxsize := 0, items := ["e"] }]
    ∧ afterPublishState.queues.map Queue.id = [0] := by
  refine ⟨?_, ?_, ?_, rfl, rfl⟩
  · exact Relation.ReflTransGen.tail
      (Relation.ReflTransGen.single
        (Step.sseSubscribe 0 initState (by simp [initState]) (by simp [initState])))
      (Step.ssePeerDisconnect 0 subState)
  · exact Step.publish "e" deadPeerState
  · exact ⟨{ qid := 0, peerConnected := false, terminated := false },
      by simp [deadPeerState], rfl, rfl⟩

/-- C5 (amended): the registries prune reactively, not at the instant a
connection dies. In every reachable state: a broadcast removes exactly
the sockets whose send failed, so every socket surviving a broadcast had
a successful send (a dead socket never outlives its first failed send
attempt); and a push-subscription queue whose production loop has
terminated is never registered. But a push subscription whose peer
disconnected may stay registered — and keep receiving published events —
until its loop next wakes and observes the disconnect
(`claim_C5_counterexample`). -/
theorem claim_C5_amended_reactive_pruning (s : SysState) (h : Reachable s) :
    (∀ live : Nat → Bool, ∀ message : String,
        ∀ sid ∈ ((s.manager.broadcast live message).1).active,
          live sid = true)
    ∧ (∀ c ∈ s.conns, c.terminated = true →
        c.qid ∉ s.queues.map Queue.id) := by
  have inv := reachable_inv h
  constructor
  · intro live message sid hsid
    rw [broadcast_active_nodup _ _ _ inv.activeNodup] at hsid
    exact (List.mem_filter.mp hsid).2
  · exact inv.termGone

/-- Witness for C5 (amended), at the reachable state with one
dead-peered subscriber. -/
theorem claim_C5_witness :
    (∀ live : Nat → Bool, ∀ message : String,
        ∀ sid ∈ ((deadPeerState.manager.broadcast live message).1).active,
          live sid = true)
    ∧ (∀ c ∈ deadPeerState.conns, c.terminated = true →
        c.qid ∉ deadPeerState.queues.map Queue.id) :=
  claim_C5_amended_reactive_pruning deadPeerState
    (Relation.ReflTransGen.tail
      (Relation.ReflTransGen.single
        (Step.sseSubscribe 0 initState (by simp [initState]) (by simp [initState])))
      (Step.ssePeerDisconnect 0 subState))

/-- C6: broadcast and publish iterate a point-in-time defensive copy of
the membership: every snapshot member is targeted by exactly one delivery
attempt of the trace — none skipped, none attempted twice — even though
broadcast itself removes failed sockets from the live set mid-iteration;
both functions are total, so concurrent removal never raises. -/
theorem claim_C6_snapshot_iteration (m : ConnectionManager)
    (sendOk : Nat → Bool) (message : String) (subs : List Queue)
    (event : String) (hm : m.active.Nodup)
    (hq : (subs.map Queue.id).Nodup) :
    (∀ ws ∈ m.active,
        (((m.broadcast sendOk message).2).filter
            (fun d => d.wsTarget == some ws)).length = 1)
    ∧ (∀ q ∈ subs,
        (((publishSSE subs event).2).filter
            (fun d => d.sseTarget == some q.id)).length = 1) := by
  constructor
  · intro ws hws
    rw [broadcast_trace, ← List.countP_eq_length_filter, List.countP_map]
    have hcg : List.countP
        ((fun d => d.wsTarget == some ws)
          ∘ (fun w => Delivery.ws w message (sendOk w))) m.active
        = List.countP (fun w => w == ws) m.active := by
      apply List.countP_congr
      intro a _
      simp [Function.comp, Delivery.wsTarget]
    rw [hcg, ← List.count_eq_countP]
    exact List.count_eq_one_of_mem hm hws
  · intro q hqm
    have htr : (publishSSE subs event).2
        = subs.map (fun q2 => Delivery.sse q2.id event (putOrDrop event q2).2) :=
      rfl
    rw [htr, ← List.countP_eq_length_filter, List.countP_map]
    have hcg : List.countP
        ((fun d => d.sseTarget == some q.id)
          ∘ (fun q2 => Delivery.sse q2.id event (putOrDrop event q2).2)) subs
        = List.countP ((fun i => i == q.id) ∘ Queue.id) subs := by
      apply List.countP_congr
      intro a _
      simp [Function.comp, Delivery.sseTarget]
    rw [hcg, ← List.countP_map, ← List.count_eq_countP]
    exact List.count_eq_one_of_mem hq (List.mem_map_of_mem Queue.id hqm)

/-- Witness for C6: two live sockets and two registered queues each get
exactly one delivery attempt. -/
theorem claim_C6_witness :
    (∀ ws ∈ mW.active,
        (((mW.broadcast sendOkW "x").2).filter
            (fun d => d.wsTarget == some ws)).length = 1)
    ∧ (∀ q ∈ sW.sse_subscribers,
        (((publishSSE sW.sse_subscribers "x").2).filter
            (fun d => d.sseTarget == some q.id)).length = 1) :=
  claim_C6_snapshot_iteration mW sendOkW "x" sW.sse_subscribers "x"
    (by decide) (by decide)

/-- C7: unregistering an absent handle is a no-op on both registries:
`disconnect` of a socket not in the active list returns the manager
unchanged (the `in` guard makes `list.remove`'s `ValueError` unreachable),
and `set.discard` of a queue not registered leaves the subscriber set
unchanged; neither raises. -/
theorem claim_C7_absent_unregister_noop (m : ConnectionManager) (ws : Nat)
    (subs : List Queue) (qid : Nat)
    (h1 : ws ∉ m.active) (h2 : qid ∉ subs.map Queue.id) :
    m.disconnect ws = m ∧ sseDiscard qid subs = subs := by
  constructor
  · unfold ConnectionManager.disconnect
    rw [if_neg h1]
  · unfold sseDiscard
    apply List.filter_eq_self.mpr
    intro q hqm
    simp only [decide_eq_true_eq, ne_eq]
    intro he
    exact h2 (he ▸ List.mem_map_of_mem Queue.id hqm)

/-- Witness for C7: removing socket `9` (never registered) and discarding
queue id `3` (never subscribed) changes nothing. -/
theorem claim_C7_witness :
    mW.disconnect 9 = mW ∧ sseDiscard 3 [queueW] = [queueW] :=
  claim_C7_absent_unregister_noop mW 9 [queueW] 3 (by decide) (by decide)

/-- C8: every successful write publishes a single serialized text blob —
the `json.dumps` of exactly the four envelope fields, with `type` equal to
`"new_message"`, the written chat's id, the new message's id, and the
preview text — and every delivery attempt on either transport carries
that same blob unchanged. -/
theorem claim_C8_envelope_blob (env : StorageEnv) (sendOk : Nat → Bool)
    (s : RTState) (payload : SendMessageRequest) (up : UploadMediaRequest)
    (h1 : env.valid_chat_oid payload.chat_id = true)
    (h2 : env.chat_exists payload.chat_id = true)
    (h3 : env.user_exists payload.sender_username = true)
    (h4 : env.valid_chat_oid up.chat_id = true)
    (h5 : env.chat_exists up.chat_id = true)
    (h6 : env.user_exists up.sender_username = true) :
    (∃ s2 tr, send_message env sendOk payload s
        = Except.ok (env.new_message_id, s2, tr)
      ∧ messageBlob env payload
          = dumpsEnvelope
              { type := "new_message", chat_id := payload.chat_id,
                message_id := env.new_message_id,
                preview := messagePreview payload }
      ∧ ∀ d ∈ tr, d.payload = messageBlob env payload)
    ∧ (∃ s2 tr mu, upload_media env sendOk up s
        = Except.ok (env.new_message_id, mu, s2, tr)
      ∧ uploadBlob env up
          = dumpsEnvelope
              { type := "new_message", chat_id := up.chat_id,
                message_id := env.new_message_id,
                preview := uploadPreview up }
      ∧ ∀ d ∈ tr, d.payload = uploadBlob env up) := by
  constructor
  · refine ⟨(publish_event sendOk (messageBlob env payload) s).1,
      (publish_event sendOk (messageBlob env payload) s).2, ?_, rfl, ?_⟩
    · simp [send_message, h1, h2, h3]
    · exact publish_event_payload sendOk (messageBlob env payload) s
  · refine ⟨(publish_event sendOk (uploadBlob env up) s).1,
      (publish_event sendOk (uploadBlob env up) s).2,
      "/api/media/" ++ env.new_media_id, ?_, rfl, ?_⟩
    · simp [upload_media, h4, h5, h6]
    · exact publish_event_payload sendOk (uploadBlob env up) s

/-- Witness for C8, with a text message and an image upload against a
store where every lookup succeeds. -/
theorem claim_C8_witness :
    (∃ s2 tr, send_message envW sendOkW payloadW sW
        = Except.ok (envW.new_message_id, s2, tr)
      ∧ messageBlob envW payloadW
          = dumpsEnvelope
              { type := "new_message", chat_id := payloadW.chat_id,
                message_id := envW.new_message_id,
                preview := messagePreview payloadW }
      ∧ ∀ d ∈ tr, d.payload = messageBlob envW payloadW)
    ∧ (∃ s2 tr mu, upload_media envW sendOkW uploadW sW
        = Except.ok (envW.new_message_id, mu, s2, tr)
      ∧ uploadBlob envW uploadW
          = dumpsEnvelope
              { type := "new_message", chat_id := uploadW.chat_id,
                message_id := envW.new_message_id,
                preview := uploadPreview uploadW }
      ∧ ∀ d ∈ tr, d.payload = uploadBlob envW uploadW) :=
  claim_C8_envelope_blob envW sendOkW sW payloadW uploadW rfl rfl rfl rfl rfl rfl

/-- C9 counterexample: the socket registry is a Python list, not a set.
`connect` appends unconditionally, so registering the same handle twice
yields two entries, and a single `disconnect` (`list.remove`) deletes only
the first occurrence, leaving the handle still a member. -/
theorem claim_C9_counterexample :
    ((((ConnectionManager.mk []).connect 7).connect 7).active = [7, 7])
    ∧ 7 ∈ ((((ConnectionManager.mk []).connect 7).connect 7).disconnect 7).active := by
  decide

/-- C9 (amended): the socket active collection is a list, and
`connect` appends unconditionally — double registration of one handle
would duplicate it (`claim_C9_counterexample`). But every reachable state
registers each websocket at most once (the endpoint connects each freshly
accepted handle once), so the active list never holds duplicates, and from
such a state a single `disconnect` removes that socket's membership
entirely. -/
theorem claim_C9_amended_no_duplicates (s : SysState) (h : Reachable s) :
    s.manager.active.Nodup
    ∧ ∀ sid : Nat, sid ∉ ((s.manager.disconnect sid)).active := by
  have inv := reachable_inv h
  refine ⟨inv.activeNodup, ?_⟩
  intro sid hmem
  rw [disconnect_active] at hmem
  exact ((List.Nodup.mem_erase_iff inv.activeNodup).mp hmem).1 rfl

/-- Witness for C9 (amended), at the reachable state with one accepted
socket. -/
theorem claim_C9_witness :
    wsState.manager.active.Nodup
    ∧ ∀ sid : Nat, sid ∉ ((wsState.manager.disconnect sid)).active :=
  claim_C9_amended_no_duplicates wsState
    (Relation.ReflTransGen.single
      (Step.wsConnect 3 initState (by simp [initState])))

/-- C10: every push subscription's queue is created with no capacity bound
(`asyncio.Queue()`, `maxsize = 0`), in every reachable state every
registered queue is unbounded, so `put_nowait` always succeeds on it — the
exception-swallowing drop branch of `publish_event` is unreachable — and a
publish enqueues the event into every queue of the snapshot. -/
theorem claim_C10_unbounded_queues (s : SysState) (h : Reachable s)
    (event : String) :
    (∀ qid : Nat, (newQueue qid).maxsize = 0)
    ∧ (∀ q ∈ s.queues, q.maxsize = 0)
    ∧ (∀ q ∈ s.queues, q.put_nowait event
          = Except.ok { q with items := q.items ++ [event] })
    ∧ (publishSSE s.queues event).1
        = s.queues.map (fun q => { q with items := q.items ++ [event] })
    ∧ (publishSSE s.queues event).2
        = s.queues.map (fun q => Delivery.sse q.id event true) := by
  have inv := reachable_inv h
  refine ⟨fun _ => rfl, inv.queueMax, ?_, ?_, ?_⟩
  · intro q hq
    exact put_nowait_of_maxsize_zero q event (inv.queueMax q hq)
  · show s.queues.map (fun q => (putOrDrop event q).1) = _
    apply List.map_congr_left
    intro q hq
    rw [putOrDrop_eq]
    simp [full_of_maxsize_zero q (inv.queueMax q hq)]
  · show s.queues.map
        (fun q => Delivery.sse q.id event (putOrDrop event q).2) = _
    apply List.map_congr_left
    intro q hq
    rw [putOrDrop_eq]
    simp [full_of_maxsize_zero q (inv.queueMax q hq)]

/-- Witness for C10, at the reachable state with one subscriber: the
publish delivers into its (unbounded) queue. -/
theorem claim_C10_witness :
    (∀ qid : Nat, (newQueue qid).maxsize = 0)
    ∧ (∀ q ∈ subState.queues, q.maxsize = 0)
    ∧ (∀ q ∈ subState.queues, q.put_nowait "ev"
          = Except.ok { q with items := q.items ++ ["ev"] })
    ∧ (publishSSE subState.queues "ev").1
        = subState.queues.map (fun q => { q with items := q.items ++ ["ev"] })
    ∧ (publishSSE subState.queues "ev").2
        = subState.queues.map (fun q => Delivery.sse q.id "ev" true) :=
  claim_C10_unbounded_queues subState
    (Relation.ReflTransGen.single
      (Step.sseSubscribe 0 initState (by simp [initState]) (by simp [initState])))
    "ev"

end VibeChat
